import Mathlib

/-!
Verification development for the ACP client engine (virtuals_acp).

Shallow embedding of the core of the repository:
- the JSON-like wire values carried in memo content (the text layer,
  namely json.dumps and the JSON parser invoked by
  pydantic model_validate_json, is a bijection between well-formed JSON
  text and JSON trees; we work directly on the trees, and an
  unparseable content string is represented by an absent tree);
- the payload envelope (models.py: GenericPayload and the concrete
  payload records) with its pydantic encoding (camelCase aliases,
  by_alias dumps) and validation;
- memos (memo.py) and jobs (job.py) with their operation guards;
- the submit-and-confirm transaction pipeline (contract_manager.py),
  with the chain/relay collaborator abstracted as an oracle giving the
  response of each confirm (validate_transaction) call;
- the job-id extraction retry loop of client.initiate_job (client.py);
- the dispatch runtime of the external-evaluation seller example
  (examples/acp_base/external_evaluation/seller.py) as an interleaving
  transition system.

Python exceptions are modelled as Except.error carrying the message;
network effects are modelled as an explicit trace of submit calls.
-/

namespace ACP

/-! ## JSON trees -/

/-- JSON value trees. Numbers are kept exact as rationals: the claims
never depend on binary floating point rounding, and the Python json
round trip dumps/loads is the identity on the values involved. -/
inductive Json where
  | null : Json
  | bool : Bool → Json
  | num : ℚ → Json
  | str : String → Json
  | arr : List Json → Json
  | obj : List (String × Json) → Json

/-- Key lookup in a JSON object, first binding wins (as in a Python dict
produced by the json module, keys are unique anyway). -/
def jLookup (kvs : List (String × Json)) (k : String) : Option Json :=
  match kvs with
  | [] => none
  | (k', v) :: rest => if k' = k then some v else jLookup rest k

/-- Lookup trying the camelCase alias first, then the field name:
pydantic with alias_generator=to_camel and validate_by_name=True
accepts either key. -/
def jLookup2 (kvs : List (String × Json)) (camelKey snakeKey : String) : Option Json :=
  (jLookup kvs camelKey).orElse (fun _ => jLookup kvs snakeKey)

/-! ## Enumerations (models.py) -/

inductive ACPJobPhase where
  | REQUEST | NEGOTIATION | TRANSACTION | EVALUATION
  | COMPLETED | REJECTED | EXPIRED
deriving DecidableEq, Repr

/-- Integer code of a phase (models.py ACPJobPhase values 0..6). -/
def ACPJobPhase.toVal : ACPJobPhase → ℤ
  | .REQUEST => 0
  | .NEGOTIATION => 1
  | .TRANSACTION => 2
  | .EVALUATION => 3
  | .COMPLETED => 4
  | .REJECTED => 5
  | .EXPIRED => 6

inductive MemoType where
  | MESSAGE | CONTEXT_URL | IMAGE_URL | VOICE_URL | OBJECT_URL
  | TXHASH | PAYABLE_REQUEST | PAYABLE_TRANSFER | PAYABLE_TRANSFER_ESCROW
deriving DecidableEq, Repr

/-- Integer code of a memo type (models.py MemoType values 0..8). -/
def MemoType.toVal : MemoType → ℤ
  | .MESSAGE => 0
  | .CONTEXT_URL => 1
  | .IMAGE_URL => 2
  | .VOICE_URL => 3
  | .OBJECT_URL => 4
  | .TXHASH => 5
  | .PAYABLE_REQUEST => 6
  | .PAYABLE_TRANSFER => 7
  | .PAYABLE_TRANSFER_ESCROW => 8

inductive ACPMemoStatus where
  | PENDING | APPROVED | REJECTED
deriving DecidableEq, Repr

inductive FeeType where
  | NO_FEE | IMMEDIATE_FEE | DEFERRED_FEE
deriving DecidableEq, Repr

/-- Integer code of a fee type (models.py FeeType values 0..2). -/
def FeeType.toVal : FeeType → ℤ
  | .NO_FEE => 0
  | .IMMEDIATE_FEE => 1
  | .DEFERRED_FEE => 2

inductive PayloadType where
  | FUND_RESPONSE | OPEN_POSITION | CLOSE_POSITION | CLOSE_PARTIAL_POSITION
  | POSITION_FULFILLED | CLOSE_JOB_AND_WITHDRAW | UNFULFILLED_POSITION
deriving DecidableEq, Repr

/-- Wire string of a payload type (models.py PayloadType, a str enum). -/
def PayloadType.toWire : PayloadType → String
  | .FUND_RESPONSE => "fund_response"
  | .OPEN_POSITION => "open_position"
  | .CLOSE_POSITION => "close_position"
  | .CLOSE_PARTIAL_POSITION => "close_partial_position"
  | .POSITION_FULFILLED => "position_fulfilled"
  | .CLOSE_JOB_AND_WITHDRAW => "close_job_and_withdraw"
  | .UNFULFILLED_POSITION => "unfulfilled_position"

/-- Parse a payload type from its wire string (pydantic validation of the
str enum field). -/
def PayloadType.ofWire (s : String) : Option PayloadType :=
  if s = "fund_response" then some .FUND_RESPONSE
  else if s = "open_position" then some .OPEN_POSITION
  else if s = "close_position" then some .CLOSE_POSITION
  else if s = "close_partial_position" then some .CLOSE_PARTIAL_POSITION
  else if s = "position_fulfilled" then some .POSITION_FULFILLED
  else if s = "close_job_and_withdraw" then some .CLOSE_JOB_AND_WITHDRAW
  else if s = "unfulfilled_position" then some .UNFULFILLED_POSITION
  else none

theorem payloadType_ofWire_toWire (t : PayloadType) : PayloadType.ofWire t.toWire = some t := by
  cases t <;> rfl

/-! ## Payload records (models.py) and their pydantic wire codecs

Each record mirrors one pydantic model. Encoding is model_dump with
by_alias=True (camelCase keys, None encoded as null); decoding is the
pydantic validation of a JSON tree (required fields must be present with
the right shape, Optional fields default to None, unknown keys are
ignored, both the camelCase alias and the snake_case field name are
accepted because validate_by_name=True). Lax string-to-number coercion
is not modelled: no encoder ever produces a numeric string. -/

/-- Decode a required string field. -/
def decStr : Option Json → Option String
  | some (.str s) => some s
  | _ => none

/-- Decode a required number field (pydantic float). -/
def decNum : Option Json → Option ℚ
  | some (.num q) => some q
  | _ => none

/-- Decode an Optional[str] field: missing or null gives None. -/
def decOptStr : Option Json → Option (Option String)
  | none => some none
  | some .null => some none
  | some (.str s) => some (some s)
  | _ => none

/-- Decode an Optional[float] field: missing or null gives None. -/
def decOptNum : Option Json → Option (Option ℚ)
  | none => some none
  | some .null => some none
  | some (.num q) => some (some q)
  | _ => none

/-- Encode an Optional[str] (model_dump keeps None fields as null). -/
def encOptStr : Option String → Json
  | none => .null
  | some s => .str s

/-- Encode an Optional[float]. -/
def encOptNum : Option ℚ → Json
  | none => .null
  | some q => .num q

/-- models.py TPSLConfig. -/
structure TPSLConfig where
  price : Option ℚ
  percentage : Option ℚ
deriving DecidableEq, Repr

def TPSLConfig.enc (t : TPSLConfig) : Json :=
  .obj [("price", encOptNum t.price), ("percentage", encOptNum t.percentage)]

def TPSLConfig.dec : Json → Option TPSLConfig
  | .obj kvs => do
    let price ← decOptNum (jLookup kvs "price")
    let percentage ← decOptNum (jLookup kvs "percentage")
    pure ⟨price, percentage⟩
  | _ => none

/-- models.py OpenPositionPayload. -/
structure OpenPositionPayload where
  symbol : String
  amount : ℚ
  chain : Option String
  contract_address : Option String
  tp : TPSLConfig
  sl : TPSLConfig
deriving DecidableEq, Repr

def OpenPositionPayload.enc (p : OpenPositionPayload) : Json :=
  .obj [("symbol", .str p.symbol), ("amount", .num p.amount),
        ("chain", encOptStr p.chain), ("contractAddress", encOptStr p.contract_address),
        ("tp", p.tp.enc), ("sl", p.sl.enc)]

def OpenPositionPayload.dec : Json → Option OpenPositionPayload
  | .obj kvs => do
    let symbol ← decStr (jLookup kvs "symbol")
    let amount ← decNum (jLookup kvs "amount")
    let chain ← decOptStr (jLookup kvs "chain")
    let contract_address ← decOptStr (jLookup2 kvs "contractAddress" "contract_address")
    let tpj ← jLookup kvs "tp"
    let tp ← TPSLConfig.dec tpj
    let slj ← jLookup kvs "sl"
    let sl ← TPSLConfig.dec slj
    pure ⟨symbol, amount, chain, contract_address, tp, sl⟩
  | _ => none

/-- models.py ClosePositionPayload. -/
structure ClosePositionPayload where
  position_id : ℤ
  amount : ℚ
deriving DecidableEq, Repr

def ClosePositionPayload.enc (p : ClosePositionPayload) : Json :=
  .obj [("positionId", .num (p.position_id : ℚ)), ("amount", .num p.amount)]

/-- Decode a required int field (pydantic int: a JSON number with
denominator one). -/
def decInt : Option Json → Option ℤ
  | some (.num q) => if q.den = 1 then some q.num else none
  | _ => none

def ClosePositionPayload.dec : Json → Option ClosePositionPayload
  | .obj kvs => do
    let position_id ← decInt (jLookup2 kvs "positionId" "position_id")
    let amount ← decNum (jLookup kvs "amount")
    pure ⟨position_id, amount⟩
  | _ => none

/-- models.py RequestClosePositionPayload. -/
structure RequestClosePositionPayload where
  position_id : ℤ
deriving DecidableEq, Repr

def RequestClosePositionPayload.enc (p : RequestClosePositionPayload) : Json :=
  .obj [("positionId", .num (p.position_id : ℚ))]

def RequestClosePositionPayload.dec : Json → Option RequestClosePositionPayload
  | .obj kvs => do
    let position_id ← decInt (jLookup2 kvs "positionId" "position_id")
    pure ⟨position_id⟩
  | _ => none

/-- Literal type of PositionFulfilledPayload.type. -/
inductive PFKind where
  | TP | SL | CLOSE
deriving DecidableEq, Repr

def PFKind.toWire : PFKind → String
  | .TP => "TP"
  | .SL => "SL"
  | .CLOSE => "CLOSE"

def PFKind.ofWire (s : String) : Option PFKind :=
  if s = "TP" then some .TP
  else if s = "SL" then some .SL
  else if s = "CLOSE" then some .CLOSE
  else none

/-- models.py PositionFulfilledPayload. -/
structure PositionFulfilledPayload where
  symbol : String
  amount : ℚ
  contract_address : String
  type : PFKind
  pnl : ℚ
  entry_price : ℚ
  exit_price : ℚ
deriving DecidableEq, Repr

def PositionFulfilledPayload.enc (p : PositionFulfilledPayload) : Json :=
  .obj [("symbol", .str p.symbol), ("amount", .num p.amount),
        ("contractAddress", .str p.contract_address), ("type", .str p.type.toWire),
        ("pnl", .num p.pnl), ("entryPrice", .num p.entry_price),
        ("exitPrice", .num p.exit_price)]

def PositionFulfilledPayload.dec : Json → Option PositionFulfilledPayload
  | .obj kvs => do
    let symbol ← decStr (jLookup kvs "symbol")
    let amount ← decNum (jLookup kvs "amount")
    let contract_address ← decStr (jLookup2 kvs "contractAddress" "contract_address")
    let tys ← decStr (jLookup kvs "type")
    let ty ← PFKind.ofWire tys
    let pnl ← decNum (jLookup kvs "pnl")
    let entry_price ← decNum (jLookup2 kvs "entryPrice" "entry_price")
    let exit_price ← decNum (jLookup2 kvs "exitPrice" "exit_price")
    pure ⟨symbol, amount, contract_address, ty, pnl, entry_price, exit_price⟩
  | _ => none

/-- Literal type of UnfulfilledPositionPayload.type. -/
inductive UnfKind where
  | ERROR | PARTIAL
deriving DecidableEq, Repr

def UnfKind.toWire : UnfKind → String
  | .ERROR => "ERROR"
  | .PARTIAL => "PARTIAL"

def UnfKind.ofWire (s : String) : Option UnfKind :=
  if s = "ERROR" then some .ERROR
  else if s = "PARTIAL" then some .PARTIAL
  else none

/-- models.py UnfulfilledPositionPayload. -/
structure UnfulfilledPositionPayload where
  symbol : String
  amount : ℚ
  contract_address : String
  type : UnfKind
  reason : Option String
deriving DecidableEq, Repr

def UnfulfilledPositionPayload.enc (p : UnfulfilledPositionPayload) : Json :=
  .obj [("symbol", .str p.symbol), ("amount", .num p.amount),
        ("contractAddress", .str p.contract_address), ("type", .str p.type.toWire),
        ("reason", encOptStr p.reason)]

def UnfulfilledPositionPayload.dec : Json → Option UnfulfilledPositionPayload
  | .obj kvs => do
    let symbol ← decStr (jLookup kvs "symbol")
    let amount ← decNum (jLookup kvs "amount")
    let contract_address ← decStr (jLookup2 kvs "contractAddress" "contract_address")
    let tys ← decStr (jLookup kvs "type")
    let ty ← UnfKind.ofWire tys
    let reason ← decOptStr (jLookup kvs "reason")
    pure ⟨symbol, amount, contract_address, ty, reason⟩
  | _ => none

/-- models.py CloseJobAndWithdrawPayload. -/
structure CloseJobAndWithdrawPayload where
  message : String
deriving DecidableEq, Repr

def CloseJobAndWithdrawPayload.enc (p : CloseJobAndWithdrawPayload) : Json :=
  .obj [("message", .str p.message)]

def CloseJobAndWithdrawPayload.dec : Json → Option CloseJobAndWithdrawPayload
  | .obj kvs => do
    let message ← decStr (jLookup kvs "message")
    pure ⟨message⟩
  | _ => none

/-- models.py FundResponsePayload. -/
structure FundResponsePayload where
  reporting_api_endpoint : String
  wallet_address : Option String
deriving DecidableEq, Repr

def FundResponsePayload.enc (p : FundResponsePayload) : Json :=
  .obj [("reportingApiEndpoint", .str p.reporting_api_endpoint),
        ("walletAddress", encOptStr p.wallet_address)]

def FundResponsePayload.dec : Json → Option FundResponsePayload
  | .obj kvs => do
    let reporting_api_endpoint ← decStr (jLookup2 kvs "reportingApiEndpoint" "reporting_api_endpoint")
    let wallet_address ← decOptStr (jLookup2 kvs "walletAddress" "wallet_address")
    pure ⟨reporting_api_endpoint, wallet_address⟩
  | _ => none

/-! ## The generic payload envelope (models.py GenericPayload) -/

/-- models.py GenericPayload[T]: a tagged envelope whose data field is a
single record or a list of records (the field annotation T | List[T]). -/
structure GenericPayloadOf (α : Type) where
  type : PayloadType
  data : α ⊕ List α

/-- Encode the data field: a single record encodes to its object, a list
to a JSON array (model_dump of the union field). -/
def encData (encA : α → Json) : α ⊕ List α → Json
  | .inl a => encA a
  | .inr l => .arr (l.map encA)

/-- Decode the data field of annotation T | List[T]: a JSON array is
validated element-wise as List[T] (any failing element fails the whole
validation); anything else is validated as T. -/
def decData (decA : Json → Option α) : Json → Option (α ⊕ List α)
  | .arr l => (l.mapM decA).map .inr
  | j => (decA j).map .inl

/-- Encode a GenericPayload: json.dumps(payload.model_dump()) with the
by_alias default of PayloadModel. -/
def encGP (encA : α → Json) (g : GenericPayloadOf α) : Json :=
  .obj [("type", .str g.type.toWire), ("data", encData encA g.data)]

/-- Validate a JSON tree as GenericPayload[T] (utils.try_parse_json_model
on an already-parsed tree): the type field must be a recognized
PayloadType wire string and data must validate as T | List[T]. -/
def decGP (decA : Json → Option α) : Json → Option (GenericPayloadOf α)
  | .obj kvs => do
    let tys ← decStr (jLookup kvs "type")
    let ty ← PayloadType.ofWire tys
    let dj ← jLookup kvs "data"
    let d ← decData decA dj
    pure ⟨ty, d⟩
  | _ => none

/-! ## Memo (memo.py) -/

/-- A decoded generic dict (the T = Dict instantiation used at memo
construction: any JSON object validates). -/
def MemoDict := List (String × Json)

/-- Validate a JSON tree as a plain Dict. -/
def decDict : Json → Option MemoDict
  | .obj kvs => some kvs
  | _ => none

/-- memo.py ACPMemo. The content string is represented by the JSON tree
it parses to, or none when the content is not valid JSON text.
structured_content is the best-effort decode computed in __init__. -/
structure ACPMemo where
  id : ℕ
  type : MemoType
  content : Option Json
  next_phase : ACPJobPhase
  status : ACPMemoStatus
  signed_reason : Option String
  expiry : Option ℕ
  structured_content : Option (GenericPayloadOf MemoDict)

/-- ACPMemo.__init__: the constructor always succeeds and fills
structured_content with try_parse_json_model(content, GenericPayload[Dict]),
which yields None on malformed JSON or schema mismatch. -/
def mkMemo (id : ℕ) (type : MemoType) (content : Option Json)
    (next_phase : ACPJobPhase) (status : ACPMemoStatus)
    (signed_reason : Option String) (expiry : Option ℕ) : ACPMemo :=
  { id := id, type := type, content := content, next_phase := next_phase,
    status := status, signed_reason := signed_reason, expiry := expiry,
    structured_content := content.bind (decGP decDict) }

/-- memo.py ACPMemo.payload_type. -/
def ACPMemo.payload_type (m : ACPMemo) : Option PayloadType :=
  m.structured_content.map (fun sc => sc.type)

/-- memo.py ACPMemo.get_data_as(model): the validator argument stands for
try_validate_model(-, model). A singleton list collapses to its sole
(possibly absent) element; a longer list keeps the per-element
Optionals. -/
def ACPMemo.get_data_as (m : ACPMemo) (validate : MemoDict → Option α) :
    Option (α ⊕ List (Option α)) :=
  match m.structured_content with
  | none => none
  | some sc =>
    match sc.data with
    | .inl d => (validate d).map .inl
    | .inr ds =>
      match ds.map validate with
      | [v] => v.map .inl
      | vs => some (.inr vs)

/-! ## Job data (job.py) -/

/-- job.py ACPJob (the acp_client back-reference is the ambient client
environment, passed to the operations explicitly). -/
structure ACPJob where
  id : ℕ
  provider_address : String
  client_address : String
  evaluator_address : String
  price : ℚ
  memos : List ACPMemo
  phase : ACPJobPhase
  context : Option Json

/-- job.py ACPJob.latest_memo. -/
def ACPJob.latest_memo (j : ACPJob) : Option ACPMemo :=
  j.memos.getLast?

/-- job.py ACPJob._get_memo_by_id. -/
def ACPJob.get_memo_by_id (j : ACPJob) (memo_id : ℕ) : Option ACPMemo :=
  j.memos.find? (fun m => decide (m.id = memo_id))

/-! ## Transaction pipeline (contract_manager.py)

A submit (_sign_transaction) emits one SubmitCall and yields a pending
user-operation handle; a confirm (validate_transaction) consults the
chain/relay collaborator, abstracted as an oracle mapping the attempt
index of the current pipeline call to its ConfirmResponse. A transport
exception during confirm behaves exactly like a non-200 status (both
take the retry branch), so the oracle only carries the response. -/

/-- One log entry of a transaction receipt: emitting contract address
and the hex data field (absent when the log carries no data). -/
structure LogEntry where
  address : String
  data : Option String

/-- One transaction receipt inside a confirm response. -/
structure Receipt where
  transactionHash : String
  logs : List LogEntry

/-- Response of one validate_transaction (confirm) call. -/
structure ConfirmResponse where
  status : ℕ
  receipts : List Receipt

/-- An argument of an on-chain submit call. -/
inductive CVal where
  | num : ℤ → CVal
  | bool : Bool → CVal
  | str : String → CVal
  | json : Json → CVal

/-- One _sign_transaction submission: ABI method name, ordered argument
list, and the optional alternate target contract address. -/
structure SubmitCall where
  method : String
  args : List CVal
  target : Option String

/-- Oracle for the confirm calls of one pipeline invocation. -/
def ConfirmOracle := ℕ → ConfirmResponse

/-- Outcome of the bounded confirm-retry loop. -/
structure LoopOut where
  result : Except String ConfirmResponse
  confirms : ℕ
  sleeps : List ℕ

/-- The retry loop shared by sign_memo / create_memo / create_payable_memo /
approve_allowance / set_budget: while retries > 0, confirm; a 200 status
returns the response, anything else decrements retries, and with 0
retries left the failure propagates; otherwise the loop sleeps
2 * (3 - retries) seconds and tries again. The first argument of the
recursion is the remaining retry budget, the second the index of the
next confirm call. -/
def validateLoop (oracle : ConfirmOracle) (errMsg : String) : ℕ → ℕ → LoopOut
  | 0, _ => ⟨.error errMsg, 0, []⟩
  | retries + 1, idx =>
    let r := oracle idx
    if r.status = 200 then ⟨.ok r, 1, []⟩
    else if retries = 0 then ⟨.error errMsg, 1, []⟩
    else
      let rest := validateLoop oracle errMsg retries (idx + 1)
      ⟨rest.result, rest.confirms + 1, 2 * (3 - retries) :: rest.sleeps⟩

/-- Full outcome of one pipeline call: the confirm result, the emitted
submit calls, and the confirm count and inter-attempt sleeps. -/
structure PipelineOut where
  result : Except String ConfirmResponse
  submits : List SubmitCall
  confirms : ℕ
  sleeps : List ℕ

/-- contract_manager.py configuration subset used by the pipeline. -/
structure ACPContractConfig where
  contract_address : String
  payment_token_address : String
  payment_token_decimals : ℕ

/-- _format_amount: Decimal(str(amount)) * 10 ** decimals truncated to
int (Python int() truncation toward zero). -/
def formatAmount (cfg : ACPContractConfig) (amount : ℚ) : ℤ :=
  let q := amount * (10 : ℚ) ^ cfg.payment_token_decimals
  q.num / (q.den : ℤ)

/-- contract_manager.sign_memo: one signMemo submission, then the
bounded confirm loop with default budget 3. -/
def signMemoCM (oracle : ConfirmOracle) (memo_id : ℕ) (is_approved : Bool)
    (reason : String) : PipelineOut :=
  let call : SubmitCall := ⟨"signMemo", [.num memo_id, .bool is_approved, .str reason], none⟩
  let out := validateLoop oracle "Failed to sign memo" 3 0
  ⟨out.result, [call], out.confirms, out.sleeps⟩

/-- contract_manager.create_memo: one createMemo submission, then the
bounded confirm loop with default budget 3. -/
def createMemoCM (oracle : ConfirmOracle) (job_id : ℕ) (content : CVal)
    (memo_type : MemoType) (is_secured : Bool) (next_phase : ACPJobPhase) : PipelineOut :=
  let call : SubmitCall :=
    ⟨"createMemo", [.num job_id, content, .num memo_type.toVal, .bool is_secured,
                    .num next_phase.toVal], none⟩
  let out := validateLoop oracle "Failed to create memo" 3 0
  ⟨out.result, [call], out.confirms, out.sleeps⟩

/-- contract_manager.create_payable_memo: one createPayableMemo
submission (token defaulting to the payment token), then the bounded
confirm loop. -/
def createPayableMemoCM (cfg : ACPContractConfig) (oracle : ConfirmOracle)
    (job_id : ℕ) (content : CVal) (amount : ℚ) (receiver_address : String)
    (fee_amount : ℚ) (fee_type : FeeType) (next_phase : ACPJobPhase)
    (memo_type : MemoType) (expired_at : ℕ) : PipelineOut :=
  let call : SubmitCall :=
    ⟨"createPayableMemo",
     [.num job_id, content, .str cfg.payment_token_address,
      .num (formatAmount cfg amount), .str receiver_address,
      .num (formatAmount cfg fee_amount), .num fee_type.toVal,
      .num memo_type.toVal, .num next_phase.toVal, .num expired_at], none⟩
  let out := validateLoop oracle "Failed to create payable memo" 3 0
  ⟨out.result, [call], out.confirms, out.sleeps⟩

/-- contract_manager.approve_allowance: one ERC20 approve submission
targeting the payment token contract, then the bounded confirm loop. -/
def approveAllowanceCM (cfg : ACPContractConfig) (oracle : ConfirmOracle)
    (amount : ℚ) : PipelineOut :=
  let call : SubmitCall :=
    ⟨"approve", [.str cfg.contract_address, .num (formatAmount cfg amount)],
     some cfg.payment_token_address⟩
  let out := validateLoop oracle "Failed to approve allowance" 3 0
  ⟨out.result, [call], out.confirms, out.sleeps⟩

/-! ## Job-id extraction of client.initiate_job (client.py)

After create_job submits the createJob user operation, initiate_job
polls validate_transaction in a loop of retry_count = 3 attempts with
retry_delay = 3 seconds. On a 200 status it scans the first receipt for
the log whose emitting address equals the escrow contract address and
parses the job id from its data; a missing log or an unparseable data
field raises inside the try block, so it is caught by the same except
clause that handles confirm failures and is retried like them. -/

/-- Lowercasing of an ASCII address string (str.lower() on the hex
addresses compared by initiate_job). -/
def charLower (c : Char) : Char :=
  if 65 ≤ c.toNat ∧ c.toNat ≤ 90 then Char.ofNat (c.toNat + 32) else c

/-- Lowercase an address string character-wise. -/
def lowerStr (s : String) : String := ⟨s.data.map charLower⟩

/-- Hex digit value. -/
def hexDigit (c : Char) : Option ℕ :=
  if 48 ≤ c.toNat ∧ c.toNat ≤ 57 then some (c.toNat - 48)
  else if 97 ≤ c.toNat ∧ c.toNat ≤ 102 then some (c.toNat - 87)
  else if 65 ≤ c.toNat ∧ c.toNat ≤ 70 then some (c.toNat - 55)
  else none

/-- Parse a 0x-prefixed (or bare) hex string to a natural number
(Web3.to_int(hexstr=...)); an empty digit string or any non-hex
character fails. -/
def parseHexNat (s : String) : Option ℕ :=
  let cs := s.data
  let body := if cs.take 2 = ['0', 'x'] then cs.drop 2 else cs
  if body = [] then none
  else body.foldl
    (fun acc c => do
      let a ← acc
      let d ← hexDigit c
      pure (a * 16 + d))
    (some 0)

/-- Outcome of a single attempt of the initiate_job polling loop. -/
inductive AttemptOut where
  | success : ℕ → AttemptOut
  | exc : String → AttemptOut
  | miss : AttemptOut

/-- One attempt body: on 200, index receipts[0] (an empty receipt list
raises IndexError), locate the escrow-contract log, parse its data;
on any other status the attempt falls through silently with job_id
still unset. -/
def attemptOnce (contractAddress : String) (r : ConfirmResponse) : AttemptOut :=
  if r.status = 200 then
    match r.receipts.head? with
    | none => .exc "list index out of range"
    | some rc =>
      match rc.logs.find? (fun l => lowerStr l.address = lowerStr contractAddress) with
      | none => .exc "Failed to get contract logs"
      | some lg =>
        match lg.data.bind parseHexNat with
        | none => .exc "Failed to parse job ID from contract logs"
        | some n => .success n
  else .miss

/-- Outcome of the initiate_job polling loop. -/
structure JobIdOut where
  result : Except String ℕ
  confirms : ℕ
  sleeps : List ℕ

/-- The initiate_job polling loop: for attempt in range(3). A raised
attempt is caught; with attempts left it sleeps retry_delay = 3 and
retries, on the last attempt it propagates. A silent miss (non-200
status) moves to the next attempt without sleeping; when the loop ends
with job_id unset the terminal "Failed to create job" is raised. The
first argument is the number of attempts left, the second the index of
the next confirm call. -/
def createJobIdLoop (contractAddress : String) (oracle : ConfirmOracle) :
    ℕ → ℕ → JobIdOut
  | 0, _ => ⟨.error "Failed to create job", 0, []⟩
  | left + 1, idx =>
    match attemptOnce contractAddress (oracle idx) with
    | .success n => ⟨.ok n, 1, []⟩
    | .miss =>
      let rest := createJobIdLoop contractAddress oracle left (idx + 1)
      ⟨rest.result, rest.confirms + 1, rest.sleeps⟩
    | .exc msg =>
      if left = 0 then ⟨.error msg, 1, []⟩
      else
        let rest := createJobIdLoop contractAddress oracle left (idx + 1)
        ⟨rest.result, rest.confirms + 1, 3 :: rest.sleeps⟩

/-! ## Client operations (client.py)

Each client operation makes a fixed sequence of pipeline calls; its
environment maps the index of the pipeline call within the operation to
that call's confirm oracle. The operation returns its Python return
value (or the propagated exception) together with the concatenated
submit trace. The fixed settle sleeps between dependent calls
(time.sleep(10)) do not affect any result and are not recorded. -/

def ClientEnv := ℕ → ConfirmOracle

/-- data.get('receipts', [])[0].get('transactionHash'): an empty receipt
list raises IndexError. -/
def firstTxHash (r : ConfirmResponse) : Except String String :=
  match r.receipts.head? with
  | none => .error "list index out of range"
  | some rc => .ok rc.transactionHash

/-- client.respond_to_job: sign the negotiation memo; on accept also
create the next-phase TRANSACTION memo with the given content or the
default acceptance text. -/
def respondToJobC (env : ClientEnv) (job_id memo_id : ℕ) (accept : Bool)
    (content : Option Json) (reason : String) :
    Except String String × List SubmitCall :=
  let s := signMemoCM (env 0) memo_id accept reason
  match s.result with
  | .error e => (.error e, s.submits)
  | .ok resp =>
    match resp.receipts.head? with
    | none => (.error "list index out of range", s.submits)
    | some rc =>
      if accept = false then (.ok rc.transactionHash, s.submits)
      else
        let contentVal : CVal :=
          match content with
          | some j => .json j
          | none => .str s!"Job {job_id} accepted. {reason}"
        let c := createMemoCM (env 1) job_id contentVal .MESSAGE false .TRANSACTION
        match c.result with
        | .error e => (.error e, s.submits ++ c.submits)
        | .ok _ => (.ok rc.transactionHash, s.submits ++ c.submits)

/-- client.pay_job: approve the allowance, sign the transaction memo,
then create the next-phase EVALUATION memo carrying the reason text. -/
def payJobC (cfg : ACPContractConfig) (env : ClientEnv) (job_id memo_id : ℕ)
    (amount : ℚ) (reason : String) :
    Except String ConfirmResponse × List SubmitCall :=
  let a := approveAllowanceCM cfg (env 0) amount
  match a.result with
  | .error e => (.error e, a.submits)
  | .ok _ =>
    let s := signMemoCM (env 1) memo_id true reason
    match s.result with
    | .error e => (.error e, a.submits ++ s.submits)
    | .ok _ =>
      let reason2 := if reason = "" then s!"Job {job_id} paid." else reason
      let c := createMemoCM (env 2) job_id (.str reason2) .MESSAGE false .EVALUATION
      (c.result, a.submits ++ s.submits ++ c.submits)

/-- client.transfer_funds: approve amount + fee when positive, then
create a PAYABLE_TRANSFER_ESCROW payable memo carrying the serialized
payload. -/
def transferFundsC (cfg : ACPContractConfig) (env : ClientEnv) (job_id : ℕ)
    (amount : ℚ) (receiver_address : String) (fee_amount : ℚ)
    (fee_type : FeeType) (reasonPayload : Json) (next_phase : ACPJobPhase)
    (expired_at : ℕ) : Except String String × List SubmitCall :=
  let total := amount + fee_amount
  if 0 < total then
    let a := approveAllowanceCM cfg (env 0) total
    match a.result with
    | .error e => (.error e, a.submits)
    | .ok _ =>
      let p := createPayableMemoCM cfg (env 1) job_id (.json reasonPayload) amount
        receiver_address fee_amount fee_type next_phase .PAYABLE_TRANSFER_ESCROW expired_at
      match p.result with
      | .error e => (.error e, a.submits ++ p.submits)
      | .ok resp => (firstTxHash resp, a.submits ++ p.submits)
  else
    let p := createPayableMemoCM cfg (env 0) job_id (.json reasonPayload) amount
      receiver_address fee_amount fee_type next_phase .PAYABLE_TRANSFER_ESCROW expired_at
    match p.result with
    | .error e => (.error e, p.submits)
    | .ok resp => (firstTxHash resp, p.submits)

/-- client.request_funds: create a PAYABLE_REQUEST payable memo carrying
the serialized payload. -/
def requestFundsC (cfg : ACPContractConfig) (env : ClientEnv) (job_id : ℕ)
    (amount : ℚ) (receiver_address : String) (fee_amount : ℚ)
    (fee_type : FeeType) (reasonPayload : Json) (next_phase : ACPJobPhase)
    (expired_at : ℕ) : Except String String × List SubmitCall :=
  let p := createPayableMemoCM cfg (env 0) job_id (.json reasonPayload) amount
    receiver_address fee_amount fee_type next_phase .PAYABLE_REQUEST expired_at
  match p.result with
  | .error e => (.error e, p.submits)
  | .ok resp => (firstTxHash resp, p.submits)

/-- client.respond_to_funds_request: on reject just sign with False; on
accept approve the allowance when the echoed amount is positive, then
sign with True. -/
def respondToFundsRequestC (cfg : ACPContractConfig) (env : ClientEnv)
    (memo_id : ℕ) (accept : Bool) (amount : ℚ) (reason : String) :
    Except String String × List SubmitCall :=
  if accept = false then
    let s := signMemoCM (env 0) memo_id false reason
    match s.result with
    | .error e => (.error e, s.submits)
    | .ok resp => (firstTxHash resp, s.submits)
  else
    if 0 < amount then
      let a := approveAllowanceCM cfg (env 0) amount
      match a.result with
      | .error e => (.error e, a.submits)
      | .ok _ =>
        let s := signMemoCM (env 1) memo_id true reason
        match s.result with
        | .error e => (.error e, a.submits ++ s.submits)
        | .ok resp => (firstTxHash resp, a.submits ++ s.submits)
    else
      let s := signMemoCM (env 0) memo_id true reason
      match s.result with
      | .error e => (.error e, s.submits)
      | .ok resp => (firstTxHash resp, s.submits)

/-- client.respond_to_funds_transfer: sign the payable memo. -/
def respondToFundsTransferC (env : ClientEnv) (memo_id : ℕ) (accept : Bool)
    (reason : String) : Except String String × List SubmitCall :=
  let s := signMemoCM (env 0) memo_id accept reason
  match s.result with
  | .error e => (.error e, s.submits)
  | .ok resp => (firstTxHash resp, s.submits)

/-- client.deliver_job: create the OBJECT_URL memo advancing to
COMPLETED with the serialized deliverable. -/
def deliverJobC (env : ClientEnv) (job_id : ℕ) (deliverable : Json) :
    Except String String × List SubmitCall :=
  let c := createMemoCM (env 0) job_id (.json deliverable) .OBJECT_URL true .COMPLETED
  match c.result with
  | .error e => (.error e, c.submits)
  | .ok resp => (firstTxHash resp, c.submits)

/-- client.sign_memo: sign an arbitrary memo. -/
def signMemoC (env : ClientEnv) (memo_id : ℕ) (accept : Bool) (reason : String) :
    Except String String × List SubmitCall :=
  let s := signMemoCM (env 0) memo_id accept reason
  match s.result with
  | .error e => (.error e, s.submits)
  | .ok resp => (firstTxHash resp, s.submits)

/-! ## Job operations (job.py)

The optional reason strings of the Python API default via falsiness
(None or the empty string picks the generated default). -/

/-- Effective reason: Python `if not reason: reason = default`. -/
def effReason (reason : Option String) (default : String) : String :=
  match reason with
  | none => default
  | some s => if s = "" then default else s

/-- Shift the pipeline-call numbering of a client environment past the
calls already consumed by an earlier client operation. -/
def envShift (env : ClientEnv) (k : ℕ) : ClientEnv :=
  fun i => env (i + k)

/-- job.pay: locate the first memo whose next_phase is TRANSACTION
(anywhere in the memo list); without one raise the precondition error,
otherwise delegate to client.pay_job. -/
def ACPJob.pay (cfg : ACPContractConfig) (env : ClientEnv) (j : ACPJob)
    (amount : ℚ) (reason : Option String) :
    Except String ConfirmResponse × List SubmitCall :=
  match j.memos.find? (fun m => decide (m.next_phase = .TRANSACTION)) with
  | none => (.error "No transaction memo found", [])
  | some m =>
    payJobC cfg env j.id m.id amount (effReason reason s!"Job {j.id} paid")

/-- job.respond: the latest memo must announce NEGOTIATION; the optional
payload argument is already serialized (payload.model_dump_json()). -/
def ACPJob.respond (env : ClientEnv) (j : ACPJob) (accept : Bool)
    (payload : Option Json) (reason : Option String) :
    Except String String × List SubmitCall :=
  match j.latest_memo with
  | none => (.error "No negotiation memo found", [])
  | some lm =>
    if lm.next_phase = .NEGOTIATION then
      respondToJobC env j.id lm.id accept payload
        (effReason reason (if accept then s!"Job {j.id} accepted" else s!"Job {j.id} rejected"))
    else (.error "No negotiation memo found", [])

/-- job.deliver: the latest memo must announce EVALUATION (the raised
message is the stale "No transaction memo found" of the source). -/
def ACPJob.deliver (env : ClientEnv) (j : ACPJob) (deliverable : Json) :
    Except String String × List SubmitCall :=
  match j.latest_memo with
  | none => (.error "No transaction memo found", [])
  | some lm =>
    if lm.next_phase = .EVALUATION then deliverJobC env j.id deliverable
    else (.error "No transaction memo found", [])

/-- job.evaluate: the latest memo must announce COMPLETED; sign it. -/
def ACPJob.evaluate (env : ClientEnv) (j : ACPJob) (accept : Bool)
    (reason : Option String) : Except String String × List SubmitCall :=
  match j.latest_memo with
  | none => (.error "No evaluation memo found", [])
  | some lm =>
    if lm.next_phase = .COMPLETED then
      signMemoC env lm.id accept
        (effReason reason
          (if accept then s!"Job {j.id} delivery accepted" else s!"Job {j.id} delivery rejected"))
    else (.error "No evaluation memo found", [])

/-- job.open_position: an empty position list raises before anything
else; otherwise transfer the summed amount to the provider (or an
explicit wallet) with an IMMEDIATE_FEE and the OPEN_POSITION payload,
announcing TRANSACTION. The expiry defaults to now + 3 minutes. -/
def ACPJob.open_position (cfg : ACPContractConfig) (env : ClientEnv) (j : ACPJob)
    (payload : List OpenPositionPayload) (fee_amount : ℚ)
    (expired_at : Option ℕ) (wallet_address : Option String) (now : ℕ) :
    Except String String × List SubmitCall :=
  if payload = [] then (.error "No positions to open", [])
  else
    let expiry := expired_at.getD (now + 180)
    let total := (payload.map (fun p => p.amount)).sum
    let gp : Json := encGP OpenPositionPayload.enc ⟨.OPEN_POSITION, .inr payload⟩
    transferFundsC cfg env j.id total (wallet_address.getD j.provider_address)
      fee_amount .IMMEDIATE_FEE gp .TRANSACTION expiry

/-- job.respond_open_position: the memo matched by id must announce
TRANSACTION with kind PAYABLE_TRANSFER_ESCROW and decode as an
OPEN_POSITION envelope; then sign it through
client.respond_to_funds_transfer. -/
def ACPJob.respond_open_position (env : ClientEnv) (j : ACPJob) (memo_id : ℕ)
    (accept : Bool) (reason : Option String) :
    Except String String × List SubmitCall :=
  match j.get_memo_by_id memo_id with
  | none => (.error "No open position memo found", [])
  | some m =>
    if m.next_phase = .TRANSACTION ∧ m.type = .PAYABLE_TRANSFER_ESCROW then
      match m.content.bind (decGP OpenPositionPayload.dec) with
      | none => (.error "Invalid open position memo", [])
      | some gp =>
        if gp.type = .OPEN_POSITION then
          respondToFundsTransferC env m.id accept
            (effReason reason
              (if accept then s!"Job {j.id} position opening accepted"
               else s!"Job {j.id} position opening rejected"))
        else (.error "Invalid open position memo", [])
    else (.error "No open position memo found", [])

/-- job.respond_close_partial_position: the memo matched by id must
announce TRANSACTION with kind PAYABLE_REQUEST and decode as a
CLOSE_PARTIAL_POSITION envelope; the echoed amount is read from the
decoded single record (a list-shaped data field would raise an
AttributeError on .amount before any call), then
client.respond_to_funds_request runs. -/
def ACPJob.respond_close_partial_position (cfg : ACPContractConfig)
    (env : ClientEnv) (j : ACPJob) (memo_id : ℕ) (accept : Bool)
    (reason : Option String) : Except String String × List SubmitCall :=
  match j.get_memo_by_id memo_id with
  | none => (.error "No close position memo found", [])
  | some m =>
    if m.next_phase = .TRANSACTION ∧ m.type = .PAYABLE_REQUEST then
      match m.content.bind (decGP ClosePositionPayload.dec) with
      | none => (.error "Invalid close position memo", [])
      | some gp =>
        if gp.type = .CLOSE_PARTIAL_POSITION then
          match gp.data with
          | .inl p =>
            respondToFundsRequestC cfg env m.id accept p.amount
              (effReason reason
                (if accept then s!"Job {j.id} position closing accepted"
                 else s!"Job {j.id} position closing rejected"))
          | .inr _ => (.error "AttributeError: list object has no attribute amount", [])
        else (.error "Invalid close position memo", [])
    else (.error "No close position memo found", [])

/-- job.respond_close_job: the memo matched by id must announce
TRANSACTION with kind MESSAGE and decode as a CLOSE_JOB_AND_WITHDRAW
envelope; sign it, and when accepting additionally transfer the summed
fulfilled amounts to the provider announcing COMPLETED. Returns the
transfer hash when accepting, nothing otherwise. -/
def ACPJob.respond_close_job (cfg : ACPContractConfig) (env : ClientEnv)
    (j : ACPJob) (memo_id : ℕ) (accept : Bool)
    (fulfilled_positions : List PositionFulfilledPayload)
    (reason : Option String) (expired_at : Option ℕ) (now : ℕ) :
    Except String (Option String) × List SubmitCall :=
  match j.get_memo_by_id memo_id with
  | none => (.error "No close job memo found", [])
  | some m =>
    if m.next_phase = .TRANSACTION ∧ m.type = .MESSAGE then
      match m.content.bind (decGP CloseJobAndWithdrawPayload.dec) with
      | none => (.error "Invalid close job memo", [])
      | some gp =>
        if gp.type = .CLOSE_JOB_AND_WITHDRAW then
          let r := effReason reason
            (if accept then s!"Job {j.id} job closing accepted"
             else s!"Job {j.id} job closing rejected")
          let s := signMemoC env m.id accept r
          match s.1 with
          | .error e => (.error e, s.2)
          | .ok _ =>
            if accept then
              let expiry := expired_at.getD (now + 86400)
              let total := (fulfilled_positions.map (fun p => p.amount)).sum
              let payload : Json :=
                encGP PositionFulfilledPayload.enc ⟨.POSITION_FULFILLED, .inr fulfilled_positions⟩
              let t := transferFundsC cfg (envShift env 1) j.id total
                j.provider_address 0 .NO_FEE payload .COMPLETED expiry
              match t.1 with
              | .error e => (.error e, s.2 ++ t.2)
              | .ok tx => (.ok (some tx), s.2 ++ t.2)
            else (.ok none, s.2)
        else (.error "Invalid close job memo", [])
    else (.error "No close job memo found", [])

/-- job.confirm_job_closure: the memo matched by id must exist and
decode as a CLOSE_JOB_AND_WITHDRAW envelope (no next_phase or kind
check); sign it. -/
def ACPJob.confirm_job_closure (env : ClientEnv) (j : ACPJob) (memo_id : ℕ)
    (accept : Bool) (reason : Option String) :
    Except String String × List SubmitCall :=
  match j.get_memo_by_id memo_id with
  | none => (.error "Memo not found", [])
  | some m =>
    match m.content.bind (decGP CloseJobAndWithdrawPayload.dec) with
    | none => (.error "Invalid close job and withdraw memo", [])
    | some gp =>
      if gp.type = .CLOSE_JOB_AND_WITHDRAW then
        signMemoC env m.id accept
          (effReason reason
            (if accept then s!"Job {j.id} closing confirmation accepted"
             else s!"Job {j.id} closing confirmation rejected"))
      else (.error "Invalid close job and withdraw memo", [])

/-! ## Dispatch runtime (examples/acp_base/external_evaluation/seller.py)

Interleaving transition system for the queue + wake-event + lock pattern
with use_thread_lock = True. Every queue access (safe_append_job,
safe_pop_job, and the drained-empty check guarding job_event.clear())
runs under the single job_queue_lock, so each lock-protected region is
one atomic transition; job_event.set() runs outside the lock and is its
own transition. One producer models one on_new_task invocation pushing
one event; the worker models the job_worker intake loop. Handing a
popped pair to its processing thread appends it to the popped list. -/

/-- Program counter of one producer (one on_new_task call). -/
inductive PPc where
  | toAppend | toSet | finished
deriving DecidableEq, Repr

/-- One producer: its control point and the event id it pushes. -/
structure Producer where
  pc : PPc
  event : ℕ
deriving DecidableEq, Repr

/-- Program counter of the intake loop: blocked on job_event.wait,
draining the queue, or about to run the clear-if-empty check. -/
inductive WPc where
  | waiting | draining | clearing
deriving DecidableEq, Repr

/-- Shared state of the dispatch runtime. -/
structure DState where
  queue : List ℕ
  eventFlag : Bool
  popped : List ℕ
  producers : List Producer
  wpc : WPc
deriving DecidableEq, Repr

/-- Initial state: empty queue, wake signal clear, intake loop blocked,
one producer per event to be pushed. -/
def initDState (events : List ℕ) : DState :=
  ⟨[], false, [], events.map (fun e => ⟨.toAppend, e⟩), .waiting⟩

/-- One interleaving step of the dispatch runtime. -/
inductive DStep : DState → DState → Prop where
  | append (s : DState) (i : ℕ) (e : ℕ)
      (h : s.producers[i]? = some ⟨.toAppend, e⟩) :
      DStep s { s with queue := s.queue ++ [e],
                       producers := s.producers.set i ⟨.toSet, e⟩ }
  | set (s : DState) (i : ℕ) (e : ℕ)
      (h : s.producers[i]? = some ⟨.toSet, e⟩) :
      DStep s { s with eventFlag := true,
                       producers := s.producers.set i ⟨.finished, e⟩ }
  | wake (s : DState) (hw : s.wpc = .waiting) (hf : s.eventFlag = true) :
      DStep s { s with wpc := .draining }
  | pop (s : DState) (e : ℕ) (rest : List ℕ)
      (hw : s.wpc = .draining) (hq : s.queue = e :: rest) :
      DStep s { s with queue := rest, popped := s.popped ++ [e] }
  | drained (s : DState) (hw : s.wpc = .draining) (hq : s.queue = []) :
      DStep s { s with wpc := .clearing }
  | clearYes (s : DState) (hw : s.wpc = .clearing) (hq : s.queue = []) :
      DStep s { s with eventFlag := false, wpc := .waiting }
  | clearNo (s : DState) (hw : s.wpc = .clearing) (hq : s.queue ≠ []) :
      DStep s { s with wpc := .waiting }

/-- Reachability from the initial state. -/
def DReach (events : List ℕ) (s : DState) : Prop :=
  Relation.ReflTransGen DStep (initDState events) s

/-- All producers have completed their on_new_task call. -/
def AllDone (s : DState) : Prop :=
  ∀ p ∈ s.producers, p.pc = .finished

/-- Inductive invariant: (1) whenever the wake signal is clear, either
the queue is empty or some producer has appended but not yet signalled;
(2) every event whose append has happened sits in the popped list or in
the queue. -/
def DInv (s : DState) : Prop :=
  (s.eventFlag = false → s.queue = [] ∨ ∃ p ∈ s.producers, p.pc = .toSet) ∧
  (∀ p ∈ s.producers, p.pc ≠ .toAppend → p.event ∈ s.popped ++ s.queue)

theorem dinv_init (events : List ℕ) : DInv (initDState events) := by
  constructor
  · intro _
    exact Or.inl rfl
  · intro p hp hpc
    simp only [initDState, List.mem_map] at hp
    obtain ⟨e, _, rfl⟩ := hp
    exact absurd rfl hpc

theorem dinv_step {s s' : DState} (hinv : DInv s) (hstep : DStep s s') : DInv s' := by
  obtain ⟨h1, h2⟩ := hinv
  cases hstep with
  | append i e h =>
    have hlt : i < s.producers.length := (List.getElem?_eq_some_iff.mp h).1
    constructor
    · intro _
      right
      refine ⟨⟨.toSet, e⟩, ?_, rfl⟩
      have hlt' : i < (s.producers.set i ⟨.toSet, e⟩).length := by simpa using hlt
      have hmem := List.getElem_mem hlt'
      rwa [List.getElem_set_self hlt'] at hmem
    · intro p hp hpc
      rcases List.mem_or_eq_of_mem_set hp with hmem | rfl
      · have hin := h2 p hmem hpc
        simp only [List.mem_append] at hin ⊢
        rcases hin with hl | hr
        · exact Or.inl hl
        · exact Or.inr (by simp [hr])
      · simp only [List.mem_append]
        exact Or.inr (by simp)
  | set i e h =>
    constructor
    · intro hf
      simp at hf
    · intro p hp hpc
      rcases List.mem_or_eq_of_mem_set hp with hmem | rfl
      · exact h2 p hmem hpc
      · exact h2 ⟨.toSet, e⟩ (List.getElem?_mem h) (by simp)
  | wake hw hf =>
    constructor
    · intro hf'
      simp only at hf'
      rw [hf] at hf'
      exact absurd hf' (by simp)
    · intro p hp hpc
      exact h2 p hp hpc
  | pop e rest hw hq =>
    constructor
    · intro hf
      simp only at hf
      rcases h1 hf with hl | hr
      · rw [hq] at hl
        exact absurd hl (by simp)
      · exact Or.inr hr
    · intro p hp hpc
      have hin := h2 p hp hpc
      rw [hq] at hin
      simp only [List.mem_append, List.mem_cons] at hin ⊢
      rcases hin with hl | he | hr
      · exact Or.inl (by simp [hl])
      · exact Or.inl (by simp [he])
      · exact Or.inr hr
  | drained hw hq =>
    exact ⟨fun hf => (h1 hf).imp id id, fun p hp hpc => h2 p hp hpc⟩
  | clearYes hw hq =>
    exact ⟨fun _ => Or.inl hq, fun p hp hpc => h2 p hp hpc⟩
  | clearNo hw hq =>
    exact ⟨fun hf => h1 hf, fun p hp hpc => h2 p hp hpc⟩

theorem dinv_reachable {events : List ℕ} {s : DState}
    (h : DReach events s) : DInv s := by
  induction h with
  | refl => exact dinv_init events
  | tail _ hstep ih => exact dinv_step ih hstep

/-! ## Round-trip helper lemmas for the payload codecs -/

/-- Whether a JSON tree is an array. -/
def Json.isArr : Json → Bool
  | .arr _ => true
  | _ => false

theorem decData_of_not_arr (decA : Json → Option α) (j : Json)
    (h : j.isArr = false) : decData decA j = (decA j).map .inl := by
  cases j <;> first
    | rfl
    | simp [Json.isArr] at h

theorem mapM_enc {encA : α → Json} {decA : Json → Option α}
    (hdec : ∀ a, decA (encA a) = some a) :
    ∀ l : List α, (l.map encA).mapM decA = some l := by
  intro l
  induction l with
  | nil => rfl
  | cons a t ih =>
    rw [List.map_cons, List.mapM_cons, hdec a, ih]
    rfl

theorem gp_roundtrip {encA : α → Json} {decA : Json → Option α}
    (hdec : ∀ a, decA (encA a) = some a)
    (hshape : ∀ a, (encA a).isArr = false)
    (g : GenericPayloadOf α) : decGP decA (encGP encA g) = some g := by
  obtain ⟨t, d⟩ := g
  cases d with
  | inl a =>
    simp [encGP, decGP, encData, decStr, jLookup, payloadType_ofWire_toWire,
          decData_of_not_arr decA (encA a) (hshape a), hdec a]
  | inr l =>
    have hm : List.mapM.loop decA (List.map encA l) [] = some l := mapM_enc hdec l
    simp [encGP, encData, decGP, jLookup, decStr, decData, payloadType_ofWire_toWire]
    rw [hm]
    rfl

theorem tpsl_roundtrip (t : TPSLConfig) : TPSLConfig.dec t.enc = some t := by
  obtain ⟨p, q⟩ := t
  cases p <;> cases q <;> rfl

theorem openPosition_roundtrip (p : OpenPositionPayload) :
    OpenPositionPayload.dec p.enc = some p := by
  obtain ⟨s, a, ch, ca, ⟨t1, t2⟩, ⟨u1, u2⟩⟩ := p
  cases ch <;> cases ca <;> cases t1 <;> cases t2 <;> cases u1 <;> cases u2 <;> rfl

theorem closePosition_roundtrip (p : ClosePositionPayload) :
    ClosePositionPayload.dec p.enc = some p := by
  obtain ⟨pid, a⟩ := p
  simp [ClosePositionPayload.enc, ClosePositionPayload.dec, jLookup2, jLookup,
        decInt, decNum, Option.orElse]

theorem RequestclosePosition_roundtrip (p : RequestClosePositionPayload) :
    RequestClosePositionPayload.dec p.enc = some p := by
  obtain ⟨pid⟩ := p
  simp [RequestClosePositionPayload.enc, RequestClosePositionPayload.dec,
        jLookup2, jLookup, decInt, Option.orElse]

theorem pfKind_ofWire_toWire (k : PFKind) : PFKind.ofWire k.toWire = some k := by
  cases k <;> rfl

theorem positionFulfilled_roundtrip (p : PositionFulfilledPayload) :
    PositionFulfilledPayload.dec p.enc = some p := by
  obtain ⟨s, a, ca, ty, pn, en, ex⟩ := p
  cases ty <;> rfl

theorem unfKind_ofWire_toWire (k : UnfKind) : UnfKind.ofWire k.toWire = some k := by
  cases k <;> rfl

theorem unfulfilledPosition_roundtrip (p : UnfulfilledPositionPayload) :
    UnfulfilledPositionPayload.dec p.enc = some p := by
  obtain ⟨s, a, ca, ty, r⟩ := p
  cases ty <;> cases r <;> rfl

theorem closeJobAndWithdraw_roundtrip (p : CloseJobAndWithdrawPayload) :
    CloseJobAndWithdrawPayload.dec p.enc = some p := by
  obtain ⟨m⟩ := p
  rfl

theorem fundResponse_roundtrip (p : FundResponsePayload) :
    FundResponsePayload.dec p.enc = some p := by
  obtain ⟨e, w⟩ := p
  cases w <;> rfl

theorem tpsl_enc_not_arr (t : TPSLConfig) : t.enc.isArr = false := rfl

theorem openPosition_enc_not_arr (p : OpenPositionPayload) :
    p.enc.isArr = false := rfl

theorem closePosition_enc_not_arr (p : ClosePositionPayload) :
    p.enc.isArr = false := rfl

theorem positionFulfilled_enc_not_arr (p : PositionFulfilledPayload) :
    p.enc.isArr = false := rfl

theorem unfulfilledPosition_enc_not_arr (p : UnfulfilledPositionPayload) :
    p.enc.isArr = false := rfl

theorem closeJobAndWithdraw_enc_not_arr (p : CloseJobAndWithdrawPayload) :
    p.enc.isArr = false := rfl

theorem fundResponse_enc_not_arr (p : FundResponsePayload) :
    p.enc.isArr = false := rfl

theorem RequestclosePosition_enc_not_arr (p : RequestClosePositionPayload) :
    p.enc.isArr = false := rfl

/-! ## Claim theorems -/

/-- Claim C5: decoding is total and silent. For every memo content, when
try_parse_json_model fails (malformed JSON, here an absent tree or one
that is valid JSON but not an envelope object, or an envelope schema
mismatch), the constructed memo carries no structured payload, and both
typed reads payload_type and get_data_as return no data instead of
raising. -/
theorem claim_C5 (id : ℕ) (ty : MemoType) (content : Option Json)
    (np : ACPJobPhase) (st : ACPMemoStatus) (sr : Option String) (ex : Option ℕ)
    {α : Type} (validate : MemoDict → Option α)
    (h : content.bind (decGP decDict) = none) :
    (mkMemo id ty content np st sr ex).structured_content = none ∧
    (mkMemo id ty content np st sr ex).payload_type = none ∧
    (mkMemo id ty content np st sr ex).get_data_as validate = none := by
  refine ⟨h, ?_, ?_⟩ <;>
    simp [mkMemo, ACPMemo.payload_type, ACPMemo.get_data_as, h]

/-- Witness for C5 at a concrete malformed content string. -/
theorem claim_C5_witness :
    ((some (Json.str "oops")).bind (decGP decDict) = none) ∧
    ((mkMemo 1 .MESSAGE (some (Json.str "oops")) .NEGOTIATION .PENDING none none).structured_content = none ∧
     (mkMemo 1 .MESSAGE (some (Json.str "oops")) .NEGOTIATION .PENDING none none).payload_type = none ∧
     (mkMemo 1 .MESSAGE (some (Json.str "oops")) .NEGOTIATION .PENDING none none).get_data_as
       (fun d => some d) = none) :=
  ⟨rfl, claim_C5 1 .MESSAGE (some (Json.str "oops")) .NEGOTIATION .PENDING none none
    (fun d => some d) rfl⟩

/-- Claim C6: for every payload envelope of each of the seven recognized
kinds, encoding it to its wire content and decoding that content back as
the same model yields the original value, field for field. -/
theorem claim_C6 :
    (∀ g : GenericPayloadOf FundResponsePayload,
      decGP FundResponsePayload.dec (encGP FundResponsePayload.enc g) = some g) ∧
    (∀ g : GenericPayloadOf OpenPositionPayload,
      decGP OpenPositionPayload.dec (encGP OpenPositionPayload.enc g) = some g) ∧
    (∀ g : GenericPayloadOf ClosePositionPayload,
      decGP ClosePositionPayload.dec (encGP ClosePositionPayload.enc g) = some g) ∧
    (∀ g : GenericPayloadOf PositionFulfilledPayload,
      decGP PositionFulfilledPayload.dec (encGP PositionFulfilledPayload.enc g) = some g) ∧
    (∀ g : GenericPayloadOf UnfulfilledPositionPayload,
      decGP UnfulfilledPositionPayload.dec (encGP UnfulfilledPositionPayload.enc g) = some g) ∧
    (∀ g : GenericPayloadOf CloseJobAndWithdrawPayload,
      decGP CloseJobAndWithdrawPayload.dec (encGP CloseJobAndWithdrawPayload.enc g) = some g) ∧
    (∀ g : GenericPayloadOf RequestClosePositionPayload,
      decGP RequestClosePositionPayload.dec (encGP RequestClosePositionPayload.enc g) = some g) :=
  ⟨gp_roundtrip fundResponse_roundtrip fundResponse_enc_not_arr,
   gp_roundtrip openPosition_roundtrip openPosition_enc_not_arr,
   gp_roundtrip closePosition_roundtrip closePosition_enc_not_arr,
   gp_roundtrip positionFulfilled_roundtrip positionFulfilled_enc_not_arr,
   gp_roundtrip unfulfilledPosition_roundtrip unfulfilledPosition_enc_not_arr,
   gp_roundtrip closeJobAndWithdraw_roundtrip closeJobAndWithdraw_enc_not_arr,
   gp_roundtrip RequestclosePosition_roundtrip
     (fun p => RequestclosePosition_enc_not_arr p)⟩

/-- Claim C9: open_position with an empty position list raises
immediately with an empty submit trace. -/
theorem claim_C9 (cfg : ACPContractConfig) (env : ClientEnv) (j : ACPJob)
    (fee_amount : ℚ) (expired_at : Option ℕ) (wallet_address : Option String)
    (now : ℕ) :
    ACPJob.open_position cfg env j [] fee_amount expired_at wallet_address now =
      (.error "No positions to open", []) := rfl

/-- Claim C10: no state-changing job operation reads the job phase: on
two jobs identical except for the phase attribute, every operation
returns the same result and emits the same submit trace. -/
theorem claim_C10 (cfg : ACPContractConfig) (env : ClientEnv) (j : ACPJob)
    (p : ACPJobPhase) (amount : ℚ) (reason : Option String) (accept : Bool)
    (payload : Option Json) (deliverable : Json) (memo_id : ℕ)
    (fulfilled : List PositionFulfilledPayload) (expired_at : Option ℕ) (now : ℕ) :
    ACPJob.pay cfg env { j with phase := p } amount reason =
      ACPJob.pay cfg env j amount reason ∧
    ACPJob.respond env { j with phase := p } accept payload reason =
      ACPJob.respond env j accept payload reason ∧
    ACPJob.deliver env { j with phase := p } deliverable =
      ACPJob.deliver env j deliverable ∧
    ACPJob.evaluate env { j with phase := p } accept reason =
      ACPJob.evaluate env j accept reason ∧
    ACPJob.respond_open_position env { j with phase := p } memo_id accept reason =
      ACPJob.respond_open_position env j memo_id accept reason ∧
    ACPJob.respond_close_partial_position cfg env { j with phase := p } memo_id accept reason =
      ACPJob.respond_close_partial_position cfg env j memo_id accept reason ∧
    ACPJob.respond_close_job cfg env { j with phase := p } memo_id accept fulfilled
        reason expired_at now =
      ACPJob.respond_close_job cfg env j memo_id accept fulfilled reason expired_at now ∧
    ACPJob.confirm_job_closure env { j with phase := p } memo_id accept reason =
      ACPJob.confirm_job_closure env j memo_id accept reason :=
  ⟨rfl, rfl, rfl, rfl, rfl, rfl, rfl, rfl⟩

/-! ## Concrete fixtures used by witnesses and counterexamples -/

/-- A contract configuration with short concrete addresses. -/
def cfg0 : ACPContractConfig := ⟨"0xacp", "0xtoken", 6⟩

/-- A chain environment whose every confirm succeeds with one receipt. -/
def okEnv : ClientEnv := fun _ _ => ⟨200, [⟨"0xtx", []⟩]⟩

theorem okEnv_status (k i : ℕ) : (okEnv k i).status = 200 := rfl

/-- A confirm oracle failing on attempts one and two and succeeding on
attempt three (the stub of spec Scenario D). -/
def stubOracle : ConfirmOracle := fun i =>
  if i = 2 then ⟨200, [⟨"0xtx3", []⟩]⟩ else ⟨500, []⟩

/-- An oracle whose confirms always succeed but whose receipt logs never
come from the escrow contract. -/
def badLogsOracle : ConfirmOracle := fun _ =>
  ⟨200, [⟨"0xtx", [⟨"0xdead", some "0x05"⟩]⟩]⟩

/-- An oracle whose confirms succeed with an escrow-contract log whose
data field is absent, so the job-id parse fails. -/
def badDataOracle : ConfirmOracle := fun _ =>
  ⟨200, [⟨"0xtx", [⟨"0xAcP", none⟩]⟩]⟩

/-- A pending memo announcing TRANSACTION. -/
def memoT : ACPMemo := mkMemo 1 .MESSAGE none .TRANSACTION .PENDING none none

/-- A pending memo announcing NEGOTIATION. -/
def memoN : ACPMemo := mkMemo 2 .MESSAGE none .NEGOTIATION .PENDING none none

/-- A job whose latest memo announces NEGOTIATION but which also holds
an earlier TRANSACTION memo. -/
def jobC1 : ACPJob := ⟨7, "0xprov", "0xcli", "0xeval", 10, [memoT, memoN], .TRANSACTION, none⟩

/-- A job whose only memo announces NEGOTIATION. -/
def jobC1b : ACPJob := ⟨8, "0xprov", "0xcli", "0xeval", 10, [memoN], .NEGOTIATION, none⟩

/-! ## Claim C1 (pay guard) -/

/-- Claim C1 (amended): pay raises the precondition error with no
network call exactly when no memo of the job announces TRANSACTION
(job.pay matches the first TRANSACTION memo anywhere in the list, not
the latest memo); when a TRANSACTION memo is matched, pay proceeds with
it, so pay only ever proceeds on a memo whose next_phase is
TRANSACTION. -/
theorem claim_C1 (cfg : ACPContractConfig) (env : ClientEnv) (j : ACPJob)
    (amount : ℚ) (reason : Option String) :
    ((∀ m ∈ j.memos, m.next_phase ≠ .TRANSACTION) →
      ACPJob.pay cfg env j amount reason = (.error "No transaction memo found", [])) ∧
    (∀ m, j.memos.find? (fun m => decide (m.next_phase = .TRANSACTION)) = some m →
      m.next_phase = .TRANSACTION ∧
      ACPJob.pay cfg env j amount reason =
        payJobC cfg env j.id m.id amount (effReason reason s!"Job {j.id} paid")) := by
  constructor
  · intro h
    have hfind : j.memos.find? (fun m => decide (m.next_phase = .TRANSACTION)) = none := by
      rw [List.find?_eq_none]
      intro x hx
      simp [h x hx]
    simp [ACPJob.pay, hfind]
  · intro m hm
    have hp := List.find?_some hm
    simp only [decide_eq_true_eq] at hp
    exact ⟨hp, by simp [ACPJob.pay, hm]⟩

/-- Witness for C1: on a job with no TRANSACTION memo pay fails locally;
on jobC1 the matched memo is the earlier TRANSACTION memo. -/
theorem claim_C1_witness :
    ACPJob.pay cfg0 okEnv jobC1b 10 none = (.error "No transaction memo found", []) ∧
    (memoT.next_phase = .TRANSACTION ∧
     ACPJob.pay cfg0 okEnv jobC1 10 none =
       payJobC cfg0 okEnv jobC1.id memoT.id 10 (effReason none s!"Job {jobC1.id} paid")) :=
  ⟨(claim_C1 cfg0 okEnv jobC1b 10 none).1 (by decide),
   (claim_C1 cfg0 okEnv jobC1 10 none).2 memoT rfl⟩

/-- Counterexample to C1 as stated: jobC1 has latest memo announcing
NEGOTIATION, yet pay does not raise — it matches the earlier TRANSACTION
memo, performs three submit calls and returns the confirm response. -/
theorem claim_C1_counterexample :
    jobC1.latest_memo.map (fun m => m.next_phase) = some .NEGOTIATION ∧
    (ACPJob.pay cfg0 okEnv jobC1 10 none).2.length = 3 ∧
    ¬ ((ACPJob.pay cfg0 okEnv jobC1 10 none).2 = []) ∧
    (ACPJob.pay cfg0 okEnv jobC1 10 none).1 = .ok ⟨200, [⟨"0xtx", []⟩]⟩ := by
  refine ⟨rfl, rfl, ?_, rfl⟩
  intro h
  have h3 : (ACPJob.pay cfg0 okEnv jobC1 10 none).2.length = 3 := rfl
  rw [h] at h3
  exact absurd h3 (by decide)

/-! ## Claim C3 (pipeline retry behaviour) -/

theorem validateLoop_third (oracle : ConfirmOracle) (msg : String)
    (h0 : (oracle 0).status ≠ 200) (h1 : (oracle 1).status ≠ 200)
    (h2 : (oracle 2).status = 200) :
    validateLoop oracle msg 3 0 = ⟨.ok (oracle 2), 3, [2, 4]⟩ := by
  simp [validateLoop, h0, h1, h2]

/-- Claim C3 (amended): with confirm failing on the first two attempts
and succeeding on the third, sign_memo and create_memo succeed after one
submit and exactly three confirm cycles, return the attempt-3 response,
and sleep 2 then 4 seconds between attempts (strictly increasing); the
attempt budget defaults to 3, so an always-failing confirm is attempted
exactly three times before the terminal failure. -/
theorem claim_C3 (oracle : ConfirmOracle) (memo_id job_id : ℕ)
    (approved is_secured : Bool) (reason : String) (content : CVal)
    (mt : MemoType) (np : ACPJobPhase)
    (h0 : (oracle 0).status ≠ 200) (h1 : (oracle 1).status ≠ 200)
    (h2 : (oracle 2).status = 200) :
    ((signMemoCM oracle memo_id approved reason).result = .ok (oracle 2) ∧
     (signMemoCM oracle memo_id approved reason).confirms = 3 ∧
     (signMemoCM oracle memo_id approved reason).submits.length = 1 ∧
     (signMemoCM oracle memo_id approved reason).sleeps = [2, 4] ∧
     List.Chain' (fun a b => a < b) (signMemoCM oracle memo_id approved reason).sleeps) ∧
    ((createMemoCM oracle job_id content mt is_secured np).result = .ok (oracle 2) ∧
     (createMemoCM oracle job_id content mt is_secured np).confirms = 3 ∧
     (createMemoCM oracle job_id content mt is_secured np).submits.length = 1) ∧
    (∀ oracle' : ConfirmOracle, (∀ i, (oracle' i).status ≠ 200) →
      (signMemoCM oracle' memo_id approved reason).confirms = 3 ∧
      (signMemoCM oracle' memo_id approved reason).result = .error "Failed to sign memo") := by
  have hs := validateLoop_third oracle "Failed to sign memo" h0 h1 h2
  have hc := validateLoop_third oracle "Failed to create memo" h0 h1 h2
  refine ⟨?_, ?_, ?_⟩
  · simp [signMemoCM, hs]
  · simp [createMemoCM, hc]
  · intro oracle' hfail
    have : validateLoop oracle' "Failed to sign memo" 3 0 =
        ⟨.error "Failed to sign memo", 3, [2, 4]⟩ := by
      simp [validateLoop, hfail 0, hfail 1, hfail 2]
    simp [signMemoCM, this]

/-- Witness for C3 at the Scenario D stub oracle. -/
theorem claim_C3_witness :
    (stubOracle 0).status ≠ 200 ∧ (stubOracle 1).status ≠ 200 ∧
    (stubOracle 2).status = 200 ∧
    (signMemoCM stubOracle 1 true "r").result = .ok (stubOracle 2) ∧
    (signMemoCM stubOracle 1 true "r").confirms = 3 ∧
    (signMemoCM stubOracle 1 true "r").submits.length = 1 ∧
    (signMemoCM stubOracle 1 true "r").sleeps = [2, 4] :=
  ⟨by decide, by decide, rfl,
   (claim_C3 stubOracle 1 1 true true "r" (.str "c") .MESSAGE .TRANSACTION
      (by decide) (by decide) rfl).1.1,
   (claim_C3 stubOracle 1 1 true true "r" (.str "c") .MESSAGE .TRANSACTION
      (by decide) (by decide) rfl).1.2.1,
   (claim_C3 stubOracle 1 1 true true "r" (.str "c") .MESSAGE .TRANSACTION
      (by decide) (by decide) rfl).1.2.2.1,
   (claim_C3 stubOracle 1 1 true true "r" (.str "c") .MESSAGE .TRANSACTION
      (by decide) (by decide) rfl).1.2.2.2.1⟩

/-- Counterexample to C3 as stated: at the Scenario D stub the pipeline
performs exactly one submit, not three submit/confirm pairs — the retry
loop re-confirms the same pending handle without re-submitting. -/
theorem claim_C3_counterexample :
    (signMemoCM stubOracle 1 true "r").submits.length = 1 ∧
    ¬ ((signMemoCM stubOracle 1 true "r").submits.length = 3) ∧
    (signMemoCM stubOracle 1 true "r").confirms = 3 :=
  ⟨rfl, by decide, rfl⟩

/-! ## Claim C4 (job-id extraction errors are retried) -/

/-- Claim C4 (amended): a post-confirm extraction failure (missing
escrow-contract log, or unparseable job-id data) raises inside the same
try block as confirm failures, so it is caught and retried with the
remaining budget: when all three attempts raise the same extraction
error, the loop performs three confirm calls, sleeps 3 seconds after
each of the first two, and then propagates that error. -/
theorem claim_C4 (contractAddress : String) (oracle : ConfirmOracle) (msg : String)
    (h0 : attemptOnce contractAddress (oracle 0) = .exc msg)
    (h1 : attemptOnce contractAddress (oracle 1) = .exc msg)
    (h2 : attemptOnce contractAddress (oracle 2) = .exc msg) :
    createJobIdLoop contractAddress oracle 3 0 = ⟨.error msg, 3, [3, 3]⟩ := by
  simp [createJobIdLoop, h0, h1, h2]

/-- Witness for C4: the missing-log oracle raises the extraction error
on every attempt and the loop retries it to exhaustion. -/
theorem claim_C4_witness :
    attemptOnce "0xacp" (badLogsOracle 0) = .exc "Failed to get contract logs" ∧
    attemptOnce "0xacp" (badLogsOracle 1) = .exc "Failed to get contract logs" ∧
    attemptOnce "0xacp" (badLogsOracle 2) = .exc "Failed to get contract logs" ∧
    createJobIdLoop "0xacp" badLogsOracle 3 0 =
      ⟨.error "Failed to get contract logs", 3, [3, 3]⟩ :=
  ⟨rfl, rfl, rfl,
   claim_C4 "0xacp" badLogsOracle "Failed to get contract logs" rfl rfl rfl⟩

/-- Counterexample to C4 as stated: with every confirm succeeding but
the escrow-contract log missing, the extraction error consumes the full
three-attempt budget (three confirm calls, not one), and the same holds
for an unparseable data field; the raised messages are the
log-extraction ones, not a separate terminal error. -/
theorem claim_C4_counterexample :
    (createJobIdLoop "0xacp" badLogsOracle 3 0).confirms = 3 ∧
    ¬ ((createJobIdLoop "0xacp" badLogsOracle 3 0).confirms = 1) ∧
    (createJobIdLoop "0xacp" badLogsOracle 3 0).result =
      .error "Failed to get contract logs" ∧
    (createJobIdLoop "0xacp" badDataOracle 3 0).confirms = 3 ∧
    (createJobIdLoop "0xacp" badDataOracle 3 0).result =
      .error "Failed to parse job ID from contract logs" :=
  ⟨rfl, by decide, rfl, rfl, rfl⟩

/-! ## Claim C2 (respond guard and trace) -/

/-- A healthy chain environment: every confirm reports a 200 status with
at least one receipt. -/
def EnvOk (env : ClientEnv) : Prop :=
  ∀ k i, (env k i).status = 200 ∧ (env k i).receipts ≠ []

theorem envOk_okEnv : EnvOk okEnv :=
  fun _ _ => ⟨rfl, by simp [okEnv]⟩

theorem envShift_ok {env : ClientEnv} (k : ℕ) (h : EnvOk env) :
    EnvOk (envShift env k) :=
  fun a b => h (a + k) b

theorem validateLoop_first (oracle : ConfirmOracle) (msg : String)
    (h : (oracle 0).status = 200) :
    validateLoop oracle msg 3 0 = ⟨.ok (oracle 0), 1, []⟩ := by
  simp [validateLoop, h]

theorem respondToJobC_trace (env : ClientEnv) (job_id memo_id : ℕ)
    (content : Option Json) (reason : String)
    (h00 : (env 0 0).status = 200) (h10 : (env 1 0).status = 200)
    (rc : Receipt) (rest : List Receipt) (hrec : (env 0 0).receipts = rc :: rest) :
    respondToJobC env job_id memo_id true content reason =
      (.ok rc.transactionHash,
       [⟨"signMemo", [.num memo_id, .bool true, .str reason], none⟩,
        ⟨"createMemo",
         [.num job_id,
          match content with
          | some p => CVal.json p
          | none => CVal.str s!"Job {job_id} accepted. {reason}",
          .num MemoType.MESSAGE.toVal, .bool false, .num ACPJobPhase.TRANSACTION.toVal],
         none⟩]) := by
  have hs := validateLoop_first (env 0) "Failed to sign memo" h00
  have hc := validateLoop_first (env 1) "Failed to create memo" h10
  simp [respondToJobC, signMemoCM, createMemoCM, hs, hc, hrec]

/-- Claim C2: when the latest memo announces NEGOTIATION, respond(true)
succeeds against a healthy chain and its submit trace contains exactly
one createMemo call, whose next_phase argument (argument index 4) is
TRANSACTION; when the latest memo is absent or does not announce
NEGOTIATION, respond raises the precondition error with an empty
trace. -/
theorem claim_C2 (env : ClientEnv) (j : ACPJob) (payload : Option Json)
    (reason : Option String) :
    ((∀ m, j.latest_memo = some m → m.next_phase ≠ .NEGOTIATION) →
      ACPJob.respond env j true payload reason = (.error "No negotiation memo found", [])) ∧
    (∀ lm, j.latest_memo = some lm → lm.next_phase = .NEGOTIATION → EnvOk env →
      (∃ tx, (ACPJob.respond env j true payload reason).1 = .ok tx) ∧
      ((ACPJob.respond env j true payload reason).2.filter
          (fun c => decide (c.method = "createMemo"))).length = 1 ∧
      (∀ c ∈ (ACPJob.respond env j true payload reason).2, c.method = "createMemo" →
        c.args[4]? = some (.num ACPJobPhase.TRANSACTION.toVal))) := by
  constructor
  · intro h
    cases hl : j.latest_memo with
    | none => simp [ACPJob.respond, hl]
    | some m => simp [ACPJob.respond, hl, h m hl]
  · intro lm hl hp henv
    have h00 := (henv 0 0).1
    have h10 := (henv 1 0).1
    cases hrec : (env 0 0).receipts with
    | nil => exact absurd hrec (henv 0 0).2
    | cons rc rest =>
      have hresp : ACPJob.respond env j true payload reason =
          respondToJobC env j.id lm.id true payload
            (effReason reason s!"Job {j.id} accepted") := by
        simp [ACPJob.respond, hl, hp]
      have heq := respondToJobC_trace env j.id lm.id payload
        (effReason reason s!"Job {j.id} accepted") h00 h10 rc rest hrec
      rw [hresp, heq]
      refine ⟨⟨rc.transactionHash, rfl⟩, by simp, ?_⟩
      intro c hc hm
      simp only [List.mem_cons, List.not_mem_nil, or_false] at hc
      rcases hc with rfl | rfl
      · simp at hm
      · rfl

/-- A job in REQUEST whose only memo announces NEGOTIATION. -/
def memoN9 : ACPMemo := mkMemo 3 .MESSAGE none .NEGOTIATION .PENDING none none

/-- Scenario A job. -/
def jobC2 : ACPJob := ⟨9, "0xprov", "0xcli", "0xeval", 10, [memoN9], .REQUEST, none⟩

/-- Witness for C2 at the Scenario A job and a healthy environment. -/
theorem claim_C2_witness :
    (ACPJob.respond okEnv jobC2 true none none).1 = .ok "0xtx" ∧
    ((ACPJob.respond okEnv jobC2 true none none).2.filter
        (fun c => decide (c.method = "createMemo"))).length = 1 :=
  ⟨rfl, ((claim_C2 okEnv jobC2 none none).2 memoN9 rfl rfl envOk_okEnv).2.1⟩

/-! ## Claim C7 (respond_close_job) -/

theorem signMemoC_ok (env : ClientEnv) (memo_id : ℕ) (accept : Bool)
    (reason : String) (h : (env 0 0).status = 200)
    (rc : Receipt) (rest : List Receipt) (hrec : (env 0 0).receipts = rc :: rest) :
    signMemoC env memo_id accept reason =
      (.ok rc.transactionHash,
       [⟨"signMemo", [.num memo_id, .bool accept, .str reason], none⟩]) := by
  have hs := validateLoop_first (env 0) "Failed to sign memo" h
  simp [signMemoC, signMemoCM, hs, firstTxHash, hrec]

theorem transferFundsC_spec (cfg : ACPContractConfig) (env : ClientEnv)
    (job_id : ℕ) (amount : ℚ) (receiver : String) (fee_amount : ℚ)
    (fee_type : FeeType) (payload : Json) (next_phase : ACPJobPhase)
    (expired_at : ℕ) (henv : EnvOk env) :
    ∃ tx, transferFundsC cfg env job_id amount receiver fee_amount fee_type
        payload next_phase expired_at =
      (.ok tx,
       (if 0 < amount + fee_amount then
          [⟨"approve", [.str cfg.contract_address,
             .num (formatAmount cfg (amount + fee_amount))],
            some cfg.payment_token_address⟩]
        else []) ++
       [⟨"createPayableMemo",
         [.num job_id, .json payload, .str cfg.payment_token_address,
          .num (formatAmount cfg amount), .str receiver,
          .num (formatAmount cfg fee_amount), .num fee_type.toVal,
          .num MemoType.PAYABLE_TRANSFER_ESCROW.toVal, .num next_phase.toVal,
          .num expired_at], none⟩]) := by
  by_cases hpos : 0 < amount + fee_amount
  · have ha := validateLoop_first (env 0) "Failed to approve allowance" (henv 0 0).1
    have hp := validateLoop_first (env 1) "Failed to create payable memo" (henv 1 0).1
    cases hrec : (env 1 0).receipts with
    | nil => exact absurd hrec (henv 1 0).2
    | cons rc rest =>
      refine ⟨rc.transactionHash, ?_⟩
      simp [transferFundsC, hpos, approveAllowanceCM, createPayableMemoCM,
            ha, hp, hrec, firstTxHash]
  · have hp := validateLoop_first (env 0) "Failed to create payable memo" (henv 0 0).1
    cases hrec : (env 0 0).receipts with
    | nil => exact absurd hrec (henv 0 0).2
    | cons rc rest =>
      refine ⟨rc.transactionHash, ?_⟩
      simp [transferFundsC, hpos, createPayableMemoCM, hp, hrec, firstTxHash]

/-- Claim C7: respond_close_job raises a precondition error with no
network call when the matched memo is absent, or does not announce
TRANSACTION with kind MESSAGE, or does not decode as a
close-job-and-withdraw envelope; otherwise its first submit signs the
memo, and exactly when accept is true the trace additionally contains an
escrow transfer (createPayableMemo of kind PAYABLE_TRANSFER_ESCROW) to
the provider whose amount is the formatted sum of the fulfilled amounts,
carrying next_phase COMPLETED; when accept is false the trace is the
lone sign call. -/
theorem claim_C7 (cfg : ACPContractConfig) (env : ClientEnv) (j : ACPJob)
    (memo_id : ℕ) (accept : Bool) (fulfilled : List PositionFulfilledPayload)
    (reason : Option String) (expired_at : Option ℕ) (now : ℕ) :
    (j.get_memo_by_id memo_id = none →
      ACPJob.respond_close_job cfg env j memo_id accept fulfilled reason expired_at now =
        (.error "No close job memo found", [])) ∧
    (∀ m, j.get_memo_by_id memo_id = some m →
      (m.next_phase ≠ .TRANSACTION ∨ m.type ≠ .MESSAGE) →
      ACPJob.respond_close_job cfg env j memo_id accept fulfilled reason expired_at now =
        (.error "No close job memo found", [])) ∧
    (∀ m, j.get_memo_by_id memo_id = some m → m.next_phase = .TRANSACTION →
      m.type = .MESSAGE →
      m.content.bind (decGP CloseJobAndWithdrawPayload.dec) = none →
      ACPJob.respond_close_job cfg env j memo_id accept fulfilled reason expired_at now =
        (.error "Invalid close job memo", [])) ∧
    (∀ m gp, j.get_memo_by_id memo_id = some m → m.next_phase = .TRANSACTION →
      m.type = .MESSAGE →
      m.content.bind (decGP CloseJobAndWithdrawPayload.dec) = some gp →
      gp.type ≠ .CLOSE_JOB_AND_WITHDRAW →
      ACPJob.respond_close_job cfg env j memo_id accept fulfilled reason expired_at now =
        (.error "Invalid close job memo", [])) ∧
    (∀ m gp, j.get_memo_by_id memo_id = some m → m.next_phase = .TRANSACTION →
      m.type = .MESSAGE →
      m.content.bind (decGP CloseJobAndWithdrawPayload.dec) = some gp →
      gp.type = .CLOSE_JOB_AND_WITHDRAW → EnvOk env →
      ((ACPJob.respond_close_job cfg env j memo_id accept fulfilled reason expired_at now).2.head?.map
          (fun c => c.method) = some "signMemo") ∧
      (accept = true →
        ∃ c ∈ (ACPJob.respond_close_job cfg env j memo_id accept fulfilled reason expired_at now).2,
          c.method = "createPayableMemo" ∧
          c.args[4]? = some (.str j.provider_address) ∧
          c.args[3]? = some (.num (formatAmount cfg ((fulfilled.map (fun p => p.amount)).sum))) ∧
          c.args[8]? = some (.num ACPJobPhase.COMPLETED.toVal) ∧
          c.args[7]? = some (.num MemoType.PAYABLE_TRANSFER_ESCROW.toVal)) ∧
      (accept = false →
        ACPJob.respond_close_job cfg env j memo_id accept fulfilled reason expired_at now =
          (.ok none,
           [⟨"signMemo", [.num m.id, .bool false,
              .str (effReason reason s!"Job {j.id} job closing rejected")], none⟩]))) := by
  refine ⟨?_, ?_, ?_, ?_, ?_⟩
  · intro hm
    simp [ACPJob.respond_close_job, hm]
  · intro m hm hne
    have hcond : ¬ (m.next_phase = .TRANSACTION ∧ m.type = .MESSAGE) := by
      rcases hne with h | h
      · exact fun hc => h hc.1
      · exact fun hc => h hc.2
    simp [ACPJob.respond_close_job, hm, hcond]
  · intro m hm hp ht hd
    simp [ACPJob.respond_close_job, hm, hp, ht, hd]
  · intro m gp hm hp ht hd hg
    simp [ACPJob.respond_close_job, hm, hp, ht, hd, hg]
  · intro m gp hm hp ht hd hg henv
    have h00 := (henv 0 0).1
    cases hrec : (env 0 0).receipts with
    | nil => exact absurd hrec (henv 0 0).2
    | cons rc rest =>
      cases accept with
      | false =>
        have hs := signMemoC_ok env m.id false
          (effReason reason s!"Job {j.id} job closing rejected") h00 rc rest hrec
        have hout : ACPJob.respond_close_job cfg env j memo_id false fulfilled reason expired_at now =
            (.ok none,
             [⟨"signMemo", [.num m.id, .bool false,
                .str (effReason reason s!"Job {j.id} job closing rejected")], none⟩]) := by
          simp [ACPJob.respond_close_job, hm, hp, ht, hd, hg, hs]
        refine ⟨?_, ?_, ?_⟩
        · rw [hout]
          rfl
        · intro h
          cases h
        · intro _
          exact hout
      | true =>
        have hs := signMemoC_ok env m.id true
          (effReason reason s!"Job {j.id} job closing accepted") h00 rc rest hrec
        obtain ⟨tx2, htr⟩ := transferFundsC_spec cfg (envShift env 1) j.id
          ((fulfilled.map (fun p => p.amount)).sum) j.provider_address 0 .NO_FEE
          (encGP PositionFulfilledPayload.enc ⟨.POSITION_FULFILLED, .inr fulfilled⟩)
          .COMPLETED (expired_at.getD (now + 86400)) (envShift_ok 1 henv)
        have hout : ACPJob.respond_close_job cfg env j memo_id true fulfilled reason expired_at now =
            (.ok (some tx2),
             [⟨"signMemo", [.num m.id, .bool true,
                .str (effReason reason s!"Job {j.id} job closing accepted")], none⟩] ++
             ((if 0 < (fulfilled.map (fun p => p.amount)).sum + 0 then
                [⟨"approve", [.str cfg.contract_address,
                   .num (formatAmount cfg ((fulfilled.map (fun p => p.amount)).sum + 0))],
                  some cfg.payment_token_address⟩]
               else []) ++
              [⟨"createPayableMemo",
                [.num j.id,
                 .json (encGP PositionFulfilledPayload.enc ⟨.POSITION_FULFILLED, .inr fulfilled⟩),
                 .str cfg.payment_token_address,
                 .num (formatAmount cfg ((fulfilled.map (fun p => p.amount)).sum)),
                 .str j.provider_address, .num (formatAmount cfg 0), .num FeeType.NO_FEE.toVal,
                 .num MemoType.PAYABLE_TRANSFER_ESCROW.toVal, .num ACPJobPhase.COMPLETED.toVal,
                 .num (expired_at.getD (now + 86400))], none⟩])) := by
          simp [ACPJob.respond_close_job, hm, hp, ht, hd, hg, hs, htr]
        refine ⟨?_, ?_, ?_⟩
        · rw [hout]
          rfl
        · intro _
          refine ⟨⟨"createPayableMemo",
            [.num j.id,
             .json (encGP PositionFulfilledPayload.enc ⟨.POSITION_FULFILLED, .inr fulfilled⟩),
             .str cfg.payment_token_address,
             .num (formatAmount cfg ((fulfilled.map (fun p => p.amount)).sum)),
             .str j.provider_address, .num (formatAmount cfg 0), .num FeeType.NO_FEE.toVal,
             .num MemoType.PAYABLE_TRANSFER_ESCROW.toVal, .num ACPJobPhase.COMPLETED.toVal,
             .num (expired_at.getD (now + 86400))], none⟩, ?_, rfl, rfl, rfl, rfl, rfl⟩
          rw [hout]
          simp
        · intro h
          cases h

/-- Wire content of a close-job-and-withdraw message memo. -/
def cjContent : Json :=
  encGP CloseJobAndWithdrawPayload.enc ⟨.CLOSE_JOB_AND_WITHDRAW, .inl ⟨"done"⟩⟩

/-- A TRANSACTION-announcing message memo carrying that payload. -/
def memoCJ : ACPMemo := mkMemo 5 .MESSAGE (some cjContent) .TRANSACTION .PENDING none none

/-- A job holding the close-job memo. -/
def jobC7 : ACPJob := ⟨11, "0xprov", "0xcli", "0xeval", 10, [memoCJ], .TRANSACTION, none⟩

/-- A fulfilled position worth five units. -/
def pf1 : PositionFulfilledPayload := ⟨"BTC", 5, "0xc", .TP, 1, 10, 11⟩

/-- Witness for C7: accepting the close-job memo signs it and emits the
escrow transfer of the summed fulfilled amounts to the provider. -/
theorem claim_C7_witness :
    jobC7.get_memo_by_id 5 = some memoCJ ∧
    memoCJ.next_phase = .TRANSACTION ∧
    memoCJ.type = .MESSAGE ∧
    memoCJ.content.bind (decGP CloseJobAndWithdrawPayload.dec) =
      some ⟨.CLOSE_JOB_AND_WITHDRAW, .inl ⟨"done"⟩⟩ ∧
    ((ACPJob.respond_close_job cfg0 okEnv jobC7 5 true [pf1] none (some 1000) 0).2.head?.map
        (fun c => c.method) = some "signMemo") ∧
    (∃ c ∈ (ACPJob.respond_close_job cfg0 okEnv jobC7 5 true [pf1] none (some 1000) 0).2,
      c.method = "createPayableMemo" ∧
      c.args[4]? = some (.str jobC7.provider_address) ∧
      c.args[3]? = some (.num (formatAmount cfg0 (([pf1].map (fun p => p.amount)).sum))) ∧
      c.args[8]? = some (.num ACPJobPhase.COMPLETED.toVal) ∧
      c.args[7]? = some (.num MemoType.PAYABLE_TRANSFER_ESCROW.toVal)) :=
  ⟨rfl, rfl, rfl, rfl,
   ((claim_C7 cfg0 okEnv jobC7 5 true [pf1] none (some 1000) 0).2.2.2.2 memoCJ
     ⟨.CLOSE_JOB_AND_WITHDRAW, .inl ⟨"done"⟩⟩ rfl rfl rfl rfl rfl envOk_okEnv).1,
   ((claim_C7 cfg0 okEnv jobC7 5 true [pf1] none (some 1000) 0).2.2.2.2 memoCJ
     ⟨.CLOSE_JOB_AND_WITHDRAW, .inl ⟨"done"⟩⟩ rfl rfl rfl rfl rfl envOk_okEnv).2.1 rfl⟩

/-! ## Claim C8 (dispatch runtime) -/

/-- Claim C8: along every reachable execution of the dispatch runtime,
(1) any step that clears the wake signal happens from a state whose
queue is empty (the clear is guarded by the under-lock emptiness check),
and (2) whenever the wake signal is clear and every producer has
finished its push, every pushed event has already been popped and handed
to a worker — so the intake loop can only block again after draining all
pushed events. -/
theorem claim_C8 (events : List ℕ) (s s' : DState)
    (hreach : DReach events s) (hstep : DStep s s') :
    (s'.eventFlag = false → s.eventFlag = true → s.queue = []) ∧
    (s'.eventFlag = false → AllDone s' → ∀ p ∈ s'.producers, p.event ∈ s'.popped) := by
  constructor
  · intro hf' hf
    cases hstep with
    | append i e h =>
      rw [hf] at hf'
      cases hf'
    | set i e h =>
      cases hf'
    | wake hw hflag =>
      rw [hf] at hf'
      cases hf'
    | pop e rest hw hq =>
      rw [hf] at hf'
      cases hf'
    | drained hw hq =>
      rw [hf] at hf'
      cases hf'
    | clearYes hw hq => exact hq
    | clearNo hw hq =>
      rw [hf] at hf'
      cases hf'
  · intro hf' hdone p hp
    have hinv := dinv_reachable (Relation.ReflTransGen.tail hreach hstep)
    obtain ⟨h1, h2⟩ := hinv
    have hq : s'.queue = [] := by
      rcases h1 hf' with h | ⟨q, hqmem, hqpc⟩
      · exact h
      · rw [hdone q hqmem] at hqpc
        cases hqpc
    have hin := h2 p hp (by simp [hdone p hp])
    rw [hq] at hin
    simpa using hin

/-- States of a one-event execution of the dispatch runtime, up to the
final clear. -/
def sW0 : DState := initDState [7]

def sW1 : DState := ⟨[7], false, [], [⟨.toSet, 7⟩], .waiting⟩

def sW2 : DState := ⟨[7], true, [], [⟨.finished, 7⟩], .waiting⟩

def sW3 : DState := ⟨[7], true, [], [⟨.finished, 7⟩], .draining⟩

def sW4 : DState := ⟨[], true, [7], [⟨.finished, 7⟩], .draining⟩

def sW5 : DState := ⟨[], true, [7], [⟨.finished, 7⟩], .clearing⟩

def sW6 : DState := ⟨[], false, [7], [⟨.finished, 7⟩], .waiting⟩

theorem reachW : DReach [7] sW5 := by
  have h01 : DStep sW0 sW1 := DStep.append sW0 0 7 rfl
  have h12 : DStep sW1 sW2 := DStep.set sW1 0 7 rfl
  have h23 : DStep sW2 sW3 := DStep.wake sW2 rfl rfl
  have h34 : DStep sW3 sW4 := DStep.pop sW3 7 [] rfl rfl
  have h45 : DStep sW4 sW5 := DStep.drained sW4 rfl rfl
  exact Relation.ReflTransGen.head h01
    (Relation.ReflTransGen.head h12
      (Relation.ReflTransGen.head h23
        (Relation.ReflTransGen.head h34
          (Relation.ReflTransGen.head h45 Relation.ReflTransGen.refl))))

theorem stepW : DStep sW5 sW6 := DStep.clearYes sW5 rfl rfl

/-- Witness for C8 on a concrete one-event execution: the clearing step
runs from an empty queue, and once the signal is clear with the producer
finished, the pushed event 7 has been popped. -/
theorem claim_C8_witness :
    sW5.queue = [] ∧ (7 : ℕ) ∈ sW6.popped :=
  ⟨(claim_C8 [7] sW5 sW6 reachW stepW).1 rfl rfl,
   (claim_C8 [7] sW5 sW6 reachW stepW).2 rfl
     (fun p hp => by
        simp only [sW6] at hp
        simp only [List.mem_singleton] at hp
        rw [hp])
     ⟨.finished, 7⟩ (by simp [sW6])⟩

end ACP
